import Mathlib

/-!
Verification development for the libvirt events engine
(file src/libvirt_events.py): a shallow embedding of its data tables,
lookup helpers, payload construction, topic construction, capability
probing, filter selection, cleanup and run loop, together with theorems
settling the specified properties.

Machine integers are modelled as Int; Python exceptions are modelled
with an explicit error type and Except; functions that can raise return
Except values, and functions that catch an exception pattern-match on
the error constructor they catch.
-/

namespace LibvirtEvents

/-- Python exception classes relevant to the source. KeyError and
IndexError are distinct classes (neither is a subclass of the other),
so a handler for IndexError does not catch KeyError. -/
inductive PyErr where
  | indexError
  | keyError
  | attributeError
  | typeError
  | runtimeError
deriving DecidableEq, Repr

instance instDecEqExcept {ε α : Type} [DecidableEq ε] [DecidableEq α] :
    DecidableEq (Except ε α) := fun x y =>
  match x, y with
  | .ok a, .ok b =>
    if h : a = b then isTrue (by rw [h])
    else isFalse (by intro he; cases he; exact h rfl)
  | .ok _, .error _ => isFalse (by intro h; cases h)
  | .error _, .ok _ => isFalse (by intro h; cases h)
  | .error a, .error b =>
    if h : a = b then isTrue (by rw [h])
    else isFalse (by intro he; cases he; exact h rfl)

/-- Python sequence indexing semantics for a tuple or list of length n:
an index i with 0 <= i < n selects element i; a negative i with
-n <= i selects element n + i (wraparound); anything else is an
IndexError, modelled as none. -/
def pyIndex {α : Type} (l : List α) (i : Int) : Option α :=
  if 0 ≤ i then
    l.get? i.toNat
  else if (-i).toNat ≤ l.length then
    l.get? (l.length - (-i).toNat)
  else
    none

/-- The nth helper of the source for tuple-shaped stacks:
try stack[index] and return default on IndexError. -/
def nth {α : Type} (stack : List α) (index : Int) (default : α) : α :=
  (pyIndex stack index).getD default

/-- The possible shapes of the details component of an entry of
domain_events_map, plus the default supplied by the lifecycle
callback: a tuple of strings, a plain Python string (indexing yields a
one-character string), or the empty dict used as the fallback. -/
inductive PyDetails where
  | tup (items : List String)
  | pystr (s : String)
  | emptyDict
deriving DecidableEq, Repr

/-- Python subscript details[i]: tuples and strings raise IndexError
out of range (with negative wraparound); subscripting the empty dict
raises KeyError for every key. -/
def detailsItem (d : PyDetails) (i : Int) : Except PyErr String :=
  match d with
  | .tup items =>
    match pyIndex items i with
    | some v => .ok v
    | none => .error .indexError
  | .pystr s =>
    match pyIndex s.data i with
    | some c => .ok (String.mk [c])
    | none => .error .indexError
  | .emptyDict => .error .keyError

/-- The nth helper applied to a details object: only IndexError is
caught and turned into the default; any other exception (KeyError from
an empty dict) propagates. -/
def nthDetail (d : PyDetails) (i : Int) (default : String) : Except PyErr String :=
  match detailsItem d i with
  | .ok v => .ok v
  | .error .indexError => .ok default
  | .error e => .error e

/-- domain_events_map from the source, verbatim. Note the last entry:
in Python ("panicked") without a trailing comma is the plain string
"panicked", not a one-element tuple. -/
def domain_events_map : List (String × PyDetails) :=
  [ ("defined", .tup ["added", "updated", "renamed", "from snapshot"]),
    ("undefined", .tup ["removed", "renamed"]),
    ("started", .tup ["booted", "migrated", "restored", "snapshot", "wakeup"]),
    ("suspended", .tup ["paused", "migrated", "ioerror", "watchdog", "restored",
                        "snapshot", "api error", "postcopy", "postcopy failed"]),
    ("resumed", .tup ["unpaused", "migrated", "snapshot", "postcopy"]),
    ("stopped", .tup ["shutdown", "destroyed", "crashed", "migrated", "saved",
                      "failed", "snapshot"]),
    ("shutdown", .tup ["finished", "on guest request", "on host request"]),
    ("pmsuspended", .tup ["memory", "disk"]),
    ("crashed", .pystr "panicked") ]

/-- The event lookup performed by the lifecycle callback:
nth(domain_events_map, event, ("unknown", dict())) where the source
literally writes the empty dict as the default details. -/
def nthEvents (event : Int) : String × PyDetails :=
  nth domain_events_map event ("unknown", .emptyDict)

/-- The event-name component of the lifecycle lookup. -/
def eventName (event : Int) : String :=
  (nthEvents event).1

/-- The detail-name lookup of the lifecycle callback: the details part
of the event lookup, subscripted through nth with default "unknown". -/
def detailNameAt (event detail : Int) : Except PyErr String :=
  nthDetail (nthEvents event).2 detail "unknown"

/-- A scalar payload value: a Python string or integer. -/
inductive PyScalar where
  | pstr (v : String)
  | pint (v : Int)
deriving DecidableEq, Repr

/-- A payload value: a scalar, or a nested dict of scalars (the
domain identity dict of saltSendDomainEvent). -/
inductive PyVal where
  | scalar (v : PyScalar)
  | pdict (fields : List (String × PyScalar))
deriving DecidableEq, Repr

def PyVal.str (s : String) : PyVal := .scalar (.pstr s)

def PyVal.int (i : Int) : PyVal := .scalar (.pint i)

/-- A Python dict with string keys in insertion order. -/
def Payload : Type := List (String × PyVal)

instance : DecidableEq Payload := by
  unfold Payload
  exact inferInstance

/-- Lookup of a key in a payload dict. -/
def lookupKey (p : Payload) (k : String) : Option PyVal :=
  (p.find? (fun kv => kv.1 == k)).map Prod.snd

/-- Python dict.update semantics on insertion-ordered dicts: existing
keys keep their position and take the new value; new keys are appended
in order. -/
def pyUpdate (a b : Payload) : Payload :=
  (a.map (fun kv =>
    match lookupKey b kv.1 with
    | some v => (kv.1, v)
    | none => kv))
  ++ b.filter (fun kv => (lookupKey a kv.1).isNone)

/-- The scheme, netloc and path components produced by Python
urllib.parse.urlparse (the only components the source reads). -/
structure UrlParts where
  scheme : String
  netloc : String
  path : String
deriving DecidableEq, Repr

/-- Characters allowed in a URL scheme by urllib.parse. -/
def schemeChar (c : Char) : Bool :=
  c.isAlpha || c.isDigit || c == '+' || c == '-' || c == '.'

/-- Modelled from the Python standard library urllib.parse.urlparse
(external to the repository), restricted to the scheme, netloc and
path components the source uses: a leading run of scheme characters
before a colon is the scheme (lowercased); after it, a leading "//"
introduces the netloc, which extends to the next "/", "?" or "#";
fragment and query parts are then split off the remainder and the rest
is the path. -/
def urlparse (url : String) : UrlParts :=
  let cs := url.data
  let pre := cs.takeWhile (fun c => c ≠ ':')
  let hasScheme := pre.length < cs.length && !pre.isEmpty && pre.all schemeChar
  let scheme := if hasScheme then pre.map Char.toLower else []
  let rest := if hasScheme then cs.drop (pre.length + 1) else cs
  let hasNetloc := rest.take 2 = ['/', '/']
  let body := if hasNetloc then rest.drop 2 else rest
  let netloc :=
    if hasNetloc then body.takeWhile (fun c => c ≠ '/' && c ≠ '?' && c ≠ '#') else []
  let afterNetloc := if hasNetloc then body.drop netloc.length else rest
  let beforeFrag := afterNetloc.takeWhile (fun c => c ≠ '#')
  let path := beforeFrag.takeWhile (fun c => c ≠ '?')
  ⟨String.mk scheme, String.mk netloc, String.mk path⟩

/-- Python str.strip applied with the single character "/": remove
leading and trailing slashes. -/
def stripSlashes (s : String) : String :=
  String.mk (((s.data.dropWhile (fun c => c = '/')).reverse.dropWhile
    (fun c => c = '/')).reverse)

/-- The Python "/".join over a list of strings. -/
def joinSlash : List String → String
  | [] => ""
  | [x] => x
  | x :: xs => x ++ "/" ++ joinSlash xs

/-- The libvirt connection as the source uses it: only getURI. -/
structure VirConnect where
  getURI : String
deriving DecidableEq, Repr

/-- The libvirt domain as the source uses it: name and numeric ID. -/
structure VirDomain where
  name : String
  ID : Int
deriving DecidableEq, Repr

/-- The callback context dict registered with every callback, holding
the keys named prefix (written pfx here), object and event. -/
structure OpaqueCtx where
  pfx : String
  object : String
  event : String
deriving DecidableEq, Repr

/-- saltSendEvent from the source: build the uri_tag segment list
(scheme; netloc if non-empty; slash-stripped path if non-empty), join
it, prepend the uri key to the payload, and join
(tag_prefix, uriStr, object_type, event_type) with "/". The value sent
on the bus is returned as the (tag, all_data) pair. -/
def saltSendEvent (opq : OpaqueCtx) (conn : VirConnect) (data : Payload) :
    String × Payload :=
  let uri := urlparse conn.getURI
  let uriTag0 := [uri.scheme]
  let uriTag1 := if uri.netloc.length > 0 then uriTag0 ++ [uri.netloc] else uriTag0
  let path := stripSlashes uri.path
  let uriTag := if path.length > 0 then uriTag1 ++ [path] else uriTag1
  let uriStr := joinSlash uriTag
  let all_data := pyUpdate [("uri", PyVal.str conn.getURI)] data
  let tag := joinSlash [opq.pfx, uriStr, opq.object, opq.event]
  (tag, all_data)

/-- saltSendDomainEvent from the source: wrap the domain identity and
canonical event name around the event-specific data. -/
def saltSendDomainEvent (opq : OpaqueCtx) (conn : VirConnect) (dom : VirDomain)
    (event : String) (event_data : Payload) : String × Payload :=
  let data := pyUpdate
    [("domain", PyVal.pdict [("name", .pstr dom.name), ("id", .pint dom.ID)]),
     ("event", PyVal.str event)]
    event_data
  saltSendEvent opq conn data

/-- domainEventLifecycleCallback from the source: look up the event
name and details table with nth, look up the detail string with nth,
and send the event. A KeyError escaping the detail lookup propagates
out of the callback. -/
def domainEventLifecycleCallback (conn : VirConnect) (dom : VirDomain)
    (event detail : Int) (opq : OpaqueCtx) : Except PyErr (String × Payload) :=
  let ed := nth domain_events_map event ("unknown", .emptyDict)
  (nthDetail ed.2 detail "unknown").map (fun detailStr =>
    saltSendDomainEvent opq conn dom ed.1 [("detail", PyVal.str detailStr)])

/-- The address object a graphics event carries: numeric family code,
node, and optional service. -/
structure VirAddr where
  family : Int
  node : String
  service : Option String
deriving DecidableEq, Repr

/-- The subject object a graphics event carries. -/
structure VirSubject where
  type : String
  name : String
deriving DecidableEq, Repr

/-- The phases tuple of domainEventGraphicsCallback. -/
def phases : List String := ["connect", "initialize", "disconnect"]

/-- The families tuple of domainEventGraphicsCallback. -/
def families : List String := ["ipv4", "ipv6", "unix"]

/-- The dict that getAddress builds into its local variable named
data: the numeric family code resolved through nth over families, the
node, and the service when present. -/
structure AddrData where
  family : String
  node : String
  service : Option String
deriving DecidableEq, Repr

/-- The data dict constructed inside getAddress. -/
def addressData (addr : VirAddr) : AddrData :=
  { family := nth families addr.family "unknown",
    node := addr.node,
    service := addr.service }

/-- getAddress from the source: it builds the data dict and then
returns its raw argument addr instead of data (the source line reads
return addr), so the constructed dict is discarded. -/
def getAddress (addr : VirAddr) : VirAddr :=
  let _data := addressData addr
  addr

/-- The event-specific dict domainEventGraphicsCallback passes to
saltSendDomainEvent, with the keys local and remote holding what
getAddress returns. -/
structure GraphicsData where
  phase : String
  localA : VirAddr
  remoteA : VirAddr
  authScheme : String
  subjectType : String
  subjectName : String
deriving DecidableEq, Repr

/-- The payload construction of domainEventGraphicsCallback. -/
def graphicsEventData (phase : Int) (localAddr remoteAddr : VirAddr)
    (authScheme : String) (subject : VirSubject) : GraphicsData :=
  { phase := nth phases phase "unknown",
    localA := getAddress localAddr,
    remoteA := getAddress remoteAddr,
    authScheme := authScheme,
    subjectType := subject.type,
    subjectName := subject.name }

/-- The symbols the loaded libvirt binding exposes, as a table from
attribute name to numeric value. -/
def LibvirtSyms : Type := List (String × Int)

/-- getattr(libvirt, name) for a string name: the value when the
attribute exists, AttributeError otherwise. -/
def lvGetattr (syms : LibvirtSyms) (nm : String) : Except PyErr Int :=
  match syms.find? (fun p => p.1 == nm) with
  | some p => .ok p.2
  | none => .error .attributeError

/-- The event_id argument of addCallback: a string attribute name for
every call site except the block-job one, which passes the already
resolved integer identifier. -/
inductive EventIdArg where
  | attr (s : String)
  | raw (v : Int)
deriving DecidableEq, Repr

/-- getattr(libvirt, event_id): resolves a string name, but raises
TypeError when the attribute name is not a string (the integer passed
by the block-job call site). -/
def getattrArg (syms : LibvirtSyms) (eid : EventIdArg) : Except PyErr Int :=
  match eid with
  | .attr s => lvGetattr syms s
  | .raw _ => .error .typeError

/-- One entry of callbacks[obj]["callbacks"]: the event name key, the
stored type field (the event_id argument as passed), and the callback
function name. -/
structure CbEntry where
  obj : String
  event : String
  idArg : EventIdArg
  callbackName : String
deriving DecidableEq, Repr

/-- addCallback from the source: resolve the identifier with getattr
inside a try whose only handler is for AttributeError (log a warning
and skip); on success record the entry; any other exception (the
TypeError from a non-string event_id) propagates. -/
def addCallback (syms : LibvirtSyms) (tbl : List CbEntry)
    (obj event : String) (event_id : EventIdArg) (cbName : String) :
    Except PyErr (List CbEntry) :=
  match getattrArg syms event_id with
  | .ok _ => .ok (tbl ++ [⟨obj, event, event_id, cbName⟩])
  | .error .attributeError => .ok tbl
  | .error e => .error e

/-- The block-job identifier resolution in start: try the _2 form,
fall back to the plain form on AttributeError; an AttributeError from
the fallback itself is not caught here. -/
def blockJobId (syms : LibvirtSyms) : Except PyErr Int :=
  match lvGetattr syms "VIR_DOMAIN_EVENT_ID_BLOCK_JOB_2" with
  | .ok v => .ok v
  | .error _ => lvGetattr syms "VIR_DOMAIN_EVENT_ID_BLOCK_JOB"

/-- The block-job registration step of start: resolve blockJobId and
pass the integer result as the event_id argument of addCallback. -/
def registerBlockJob (syms : LibvirtSyms) (tbl : List CbEntry) :
    Except PyErr (List CbEntry) := do
  let v ← blockJobId syms
  addCallback syms tbl "domain" "block job" (.raw v) "domainEventBlockJobCallback"

/-- All (entity class, event name) pairs present in a callbacks table,
in iteration order. -/
def capabilityPairs (cbs : List (String × List String)) : List (String × String) :=
  (cbs.map (fun oc => oc.2.map (fun et => (oc.1, et)))).flatten

/-- The registration loop of start restricted to its selection logic:
an event obj/event_type is registered when the string obj/event_type
is in filters or "all" is in filters. -/
def selectedEvents (cbs : List (String × List String)) (filters : List String) :
    List (String × String) :=
  (cbs.map (fun oc => oc.2.filterMap (fun et =>
    if filters.contains (oc.1 ++ "/" ++ et) || filters.contains "all" then
      some (oc.1, et)
    else
      none))).flatten

/-- The full callback table the source installs when every identifier
is available: 23 domain events and the network lifecycle event. -/
def engineCallbacks : List (String × List String) :=
  [ ("domain",
     ["lifecycle", "reboot", "rtcchange", "watchdog", "graphics", "ioerror",
      "control error", "disk change", "tray change", "pmwakeup", "pmsuspend",
      "balloon change", "pmsuspenddisk", "block job", "device removed",
      "tunable", "agent lifecycle", "device added", "migration iteration",
      "job completed", "device removal failed", "event metadata change",
      "block threshold"]),
    ("network", ["lifecycle"]) ]

/-- The inner loop of callbacksCleanup over the ids of one object
class: each deregistration call is attempted in order; a raised
exception stops the remaining calls. Returns the attempted (obj, id)
pairs in order and the escaping exception, if any. -/
def deregLoop (dereg : String → Int → Option PyErr) (obj : String) :
    List Int → List (String × Int) × Option PyErr
  | [] => ([], none)
  | i :: rest =>
    match dereg obj i with
    | none =>
      let r := deregLoop dereg obj rest
      ((obj, i) :: r.1, r.2)
    | some e => ([(obj, i)], some e)

/-- callbacksCleanup from the source: iterate the per-object id lists
and call deregister on each id. There is no exception handling inside
the function, so an exception raised by one deregistration call aborts
all remaining calls. -/
def callbacksCleanup (dereg : String → Int → Option PyErr) :
    List (String × List Int) → List (String × Int) × Option PyErr
  | [] => ([], none)
  | (obj, ids) :: rest =>
    match deregLoop dereg obj ids with
    | (att, none) =>
      let r := callbacksCleanup dereg rest
      (att ++ r.1, r.2)
    | (att, some e) => (att, some e)

/-- All (obj, id) pairs of a callbackIds table in order. -/
def flatPairs (l : List (String × List Int)) : List (String × Int) :=
  (l.map (fun oc => oc.2.map (fun i => (oc.1, i)))).flatten

/-- An observable step of the shutdown sequence. -/
inductive ShutdownEv where
  | dereg (obj : String) (id : Int)
  | close
deriving DecidableEq, Repr

/-- The shutdown sequence at process exit. The source registers the
connection-closing cleanup handler first and callbacksCleanup second;
Python atexit runs handlers in reverse registration order and keeps
running the remaining handlers when one raises, so the deregistration
attempts happen first and the close always follows. -/
def shutdownTrace (dereg : String → Int → Option PyErr)
    (callbackIds : List (String × List Int)) : List ShutdownEv :=
  ((callbacksCleanup dereg callbackIds).1.map (fun p => ShutdownEv.dereg p.1 p.2))
    ++ [ShutdownEv.close]

/-- The possible outcomes of the run loop of start on a finite prefix
of pump results. -/
inductive StartOutcome where
  | running
  | normalReturn
  | fatal (msg : String)
deriving DecidableEq, Repr

/-- traceback.format_exc as used by the except handler of start: a
diagnostic string embedding the original cause. -/
def formatExc (cause : String) : String :=
  "Traceback (most recent call last): " ++ cause

/-- The while True loop of start over a finite prefix of results of
libvirt.virEventRunDefaultImpl: none is a normal return of the pump
(the loop continues), some e is a raised exception, which the except
Exception handler wraps with the formatted traceback and re-raises. -/
def eventLoop : List (Option String) → StartOutcome
  | [] => .running
  | none :: rest => eventLoop rest
  | some e :: _ => .fatal (formatExc e)

/-- The uri_tag segment list of saltSendEvent as a function of the
connection URI. -/
def uriSegments (uri : String) : List String :=
  let u := urlparse uri
  let path := stripSlashes u.path
  [u.scheme]
    ++ (if u.netloc.length > 0 then [u.netloc] else [])
    ++ (if path.length > 0 then [path] else [])

/-- Modelled from the spec (TagBuilder): the topic is the single
slash-join of prefix, the URI segment list (scheme; authority if
non-empty; stripped path if non-empty), entity class and event name. -/
def buildTopicSpec (connectionURI pfx entityClass evName : String) : String :=
  joinSlash ([pfx] ++ uriSegments connectionURI ++ [entityClass, evName])

/-! ## Helper lemmas -/

theorem joinSlash_cons_cons (a b : String) (l : List String) :
    joinSlash (a :: b :: l) = a ++ "/" ++ joinSlash (b :: l) := rfl

theorem joinSlash_nest (x : String) (xs rest : List String) :
    joinSlash (joinSlash (x :: xs) :: rest) = joinSlash ((x :: xs) ++ rest) := by
  induction xs generalizing x with
  | nil => cases rest <;> rfl
  | cons y ys ih =>
    cases rest with
    | nil => simp [joinSlash]
    | cons r rs =>
      have h := ih y
      calc joinSlash (joinSlash (x :: y :: ys) :: r :: rs)
          = (x ++ "/" ++ joinSlash (y :: ys)) ++ "/" ++ joinSlash (r :: rs) := rfl
        _ = x ++ "/" ++ (joinSlash (y :: ys) ++ "/" ++ joinSlash (r :: rs)) := by
            simp [String.append_assoc]
        _ = x ++ "/" ++ joinSlash (joinSlash (y :: ys) :: r :: rs) := rfl
        _ = x ++ "/" ++ joinSlash ((y :: ys) ++ (r :: rs)) := by rw [h]
        _ = joinSlash ((x :: y :: ys) ++ (r :: rs)) := rfl

theorem joinSlash_four (p o e x : String) (xs : List String) :
    joinSlash [p, joinSlash (x :: xs), o, e] = joinSlash ([p] ++ (x :: xs) ++ [o, e]) := by
  have h := joinSlash_nest x xs [o, e]
  calc joinSlash [p, joinSlash (x :: xs), o, e]
      = p ++ "/" ++ joinSlash [joinSlash (x :: xs), o, e] := rfl
    _ = p ++ "/" ++ joinSlash ((x :: xs) ++ [o, e]) := by rw [h]
    _ = joinSlash ([p] ++ (x :: xs) ++ [o, e]) := rfl

/-! ## Claim theorems -/

/-- Claim C1: the claim states that the lifecycle catalog lookups never
raise and default to "unknown" for every integer outside the valid
0-based range. The code violates this: for an out-of-range event code
the details default is the empty dict, whose subscript raises KeyError,
which the nth helper (catching only IndexError) re-raises, so the
whole lifecycle callback raises; moreover a negative in-range code
wraps around to the end of the table instead of yielding "unknown".
This theorem evaluates the code at the failing inputs. -/
theorem c1_lifecycle_lookup_not_total :
    detailNameAt 9 0 = .error PyErr.keyError
    ∧ domainEventLifecycleCallback ⟨"qemu:///system"⟩ ⟨"vm1", 7⟩ 9 0
        ⟨"salt/engines/libvirt_events", "domain", "lifecycle"⟩ =
        .error PyErr.keyError
    ∧ eventName (-1) = "crashed"
    ∧ eventName 9 = "unknown"
    ∧ detailNameAt 0 99 = .ok "unknown" := by
  refine ⟨by decide, by decide, by decide, by decide, by decide⟩

/-- Claim C2: a lifecycle firing with event code 2 and detail code 1 on
domain "vm1" with id 7 over URI "qemu:///system" and the default tag
prefix publishes exactly the topic
"salt/engines/libvirt_events/qemu/system/domain/lifecycle" with payload
uri, domain (name and id), event "started" and detail "migrated". -/
theorem c2_lifecycle_end_to_end :
    domainEventLifecycleCallback ⟨"qemu:///system"⟩ ⟨"vm1", 7⟩ 2 1
      ⟨"salt/engines/libvirt_events", "domain", "lifecycle"⟩ =
    .ok ("salt/engines/libvirt_events/qemu/system/domain/lifecycle",
      [("uri", PyVal.str "qemu:///system"),
       ("domain", PyVal.pdict [("name", .pstr "vm1"), ("id", .pint 7)]),
       ("event", PyVal.str "started"),
       ("detail", PyVal.str "migrated")]) := by decide

/-- Claim C3: the claim states that every valid detail code returns the
documented literal string, in particular that event code 8 with detail
code 0 yields "panicked". The code violates this: the crashed entry is
written ("panicked") without a trailing comma, which in Python is the
plain string "panicked" rather than a one-element tuple, so detail
code 0 yields its first character "p". This theorem evaluates the code
at the failing input and records the rest of the table. -/
theorem c3_crashed_detail_is_char :
    detailNameAt 8 0 = .ok "p"
    ∧ (nthEvents 8).2 = PyDetails.pystr "panicked"
    ∧ domain_events_map.map Prod.fst =
        ["defined", "undefined", "started", "suspended", "resumed", "stopped",
         "shutdown", "pmsuspended", "crashed"]
    ∧ detailNameAt 2 1 = .ok "migrated"
    ∧ detailNameAt 6 2 = .ok "on host request" := by
  refine ⟨by decide, by decide, by decide, by decide, by decide⟩

/-- Claim C4: the claim states that with only the older
VIR_DOMAIN_EVENT_ID_BLOCK_JOB present the block-job spec is registered
under "block job", and with both forms present the newer one is. The
code violates this: the block-job call site passes the already
resolved integer identifier to addCallback, whose
getattr(libvirt, event_id) then raises TypeError (the attribute name
is not a string); the TypeError is not caught by the AttributeError
handler and aborts startup in both scenarios. This theorem evaluates
the registration step at both inputs (8 and 16 are the libvirt values
of the two identifiers). -/
theorem c4_blockjob_registration_typeerror :
    registerBlockJob [("VIR_DOMAIN_EVENT_ID_BLOCK_JOB", 8)] [] =
      .error PyErr.typeError
    ∧ registerBlockJob
        [("VIR_DOMAIN_EVENT_ID_BLOCK_JOB_2", 16),
         ("VIR_DOMAIN_EVENT_ID_BLOCK_JOB", 8)] [] =
      .error PyErr.typeError := by
  refine ⟨by decide, by decide⟩

/-- Claim C5 counterexample: the claim quantifies over every
CallbackSpec, but for the block-job spec, absence of both identifier
forms raises an AttributeError on the fallback lookup outside the
protection of addCallback, so startup aborts instead of skipping the
subscription. -/
theorem c5_blockjob_absent_aborts :
    registerBlockJob [] [] = .error PyErr.attributeError := by decide

/-- Claim C5, amended: for every CallbackSpec whose identifier is
passed to addCallback as a string attribute name (every spec except
block job), absence of the symbol makes addCallback log a warning and
return the table unchanged without raising, so startup continues and
the other specs are unaffected. -/
theorem c5_missing_symbol_skipped (syms : LibvirtSyms) (tbl : List CbEntry)
    (obj event nm cb : String)
    (h : lvGetattr syms nm = .error .attributeError) :
    addCallback syms tbl obj event (.attr nm) cb = .ok tbl := by
  simp [addCallback, getattrArg, h]

theorem c5_missing_symbol_skipped_witness :
    addCallback [] [] "domain" "lifecycle"
      (.attr "VIR_DOMAIN_EVENT_ID_LIFECYCLE") "domainEventLifecycleCallback" =
      .ok [] :=
  c5_missing_symbol_skipped [] [] "domain" "lifecycle"
    "VIR_DOMAIN_EVENT_ID_LIFECYCLE" "domainEventLifecycleCallback" rfl

/-- Claim C10: the local and remote fields of the graphics payload are
the raw address arguments, unchanged, because getAddress builds the
family-resolved mapping into a local variable but returns its raw
argument; the resolved family name only exists in the discarded
mapping. -/
theorem c10_graphics_raw_addresses :
    (∀ (phase : Int) (la ra : VirAddr) (auth : String) (subj : VirSubject),
      (graphicsEventData phase la ra auth subj).localA = la
      ∧ (graphicsEventData phase la ra auth subj).remoteA = ra)
    ∧ (∀ a : VirAddr, getAddress a = a)
    ∧ addressData ⟨0, "node0", none⟩ =
        { family := "ipv4", node := "node0", service := none } := by
  refine ⟨fun phase la ra auth subj => ⟨rfl, rfl⟩, fun a => rfl, by decide⟩

/-- Every pointwise-true condition turns the selection filterMap into
a plain map. -/
theorem filterMap_if_true {α β : Type} (f : α → β) (c : α → Bool)
    (h : ∀ a, c a = true) (l : List α) :
    l.filterMap (fun a => if c a then some (f a) else none) = l.map f := by
  induction l with
  | nil => rfl
  | cons a as ih => simp [h a, ih]

/-- Membership characterization of the registration-loop selection. -/
theorem mem_selected_iff (cbs : List (String × List String))
    (filters : List String) (p : String × String) :
    p ∈ selectedEvents cbs filters ↔
      p ∈ capabilityPairs cbs ∧
        (filters.contains (p.1 ++ "/" ++ p.2) || filters.contains "all") = true := by
  simp only [selectedEvents, capabilityPairs, List.mem_flatten, List.mem_map]
  constructor
  · rintro ⟨l, ⟨oc, hoc, rfl⟩, hp⟩
    rw [List.mem_filterMap] at hp
    obtain ⟨et, het, hsome⟩ := hp
    rw [Option.ite_none_right_eq_some, Option.some.injEq] at hsome
    obtain ⟨hcond, heq⟩ := hsome
    subst heq
    exact ⟨⟨_, ⟨oc, hoc, rfl⟩, List.mem_map.mpr ⟨et, het, rfl⟩⟩, hcond⟩
  · rintro ⟨⟨l, ⟨oc, hoc, rfl⟩, hp⟩, hcond⟩
    rw [List.mem_map] at hp
    obtain ⟨et, het, heq⟩ := hp
    subst heq
    refine ⟨_, ⟨oc, hoc, rfl⟩, ?_⟩
    rw [List.mem_filterMap]
    refine ⟨et, het, ?_⟩
    rw [Option.ite_none_right_eq_some, Option.some.injEq]
    exact ⟨hcond, rfl⟩

/-- The inner deregistration loop attempts every id when no call
raises. -/
theorem deregLoop_all_ok (dereg : String → Int → Option PyErr) (obj : String)
    (ids : List Int) (h : ∀ i, dereg obj i = none) :
    deregLoop dereg obj ids = (ids.map (fun i => (obj, i)), none) := by
  induction ids with
  | nil => rfl
  | cons i rest ih => simp [deregLoop, h i, ih]

/-- Claim C6: the tag built by saltSendEvent is a pure function of the
connection URI, prefix, object type and event type, equal to the
single slash-join of prefix, URI segments (scheme; netloc when
non-empty; stripped path when non-empty), object and event — with no
empty segment or double slash introduced by an empty authority — and
the two documented URIs produce the documented topics. -/
theorem c6_topic_construction :
    (∀ (uri p o e : String) (data : Payload),
      (saltSendEvent ⟨p, o, e⟩ ⟨uri⟩ data).1 = buildTopicSpec uri p o e)
    ∧ (saltSendEvent ⟨"salt/engines/libvirt_events", "domain", "lifecycle"⟩
        ⟨"qemu:///system"⟩ []).1 =
      "salt/engines/libvirt_events/qemu/system/domain/lifecycle"
    ∧ (saltSendEvent ⟨"salt/engines/libvirt_events", "domain", "lifecycle"⟩
        ⟨"qemu+ssh://user@host:1234/system"⟩ []).1 =
      "salt/engines/libvirt_events/qemu+ssh/user@host:1234/system/domain/lifecycle" := by
  refine ⟨?_, by decide, by decide⟩
  intro uri p o e data
  simp only [saltSendEvent, buildTopicSpec, uriSegments]
  by_cases hn : (urlparse uri).netloc.length > 0 <;>
    by_cases hp : (stripSlashes (urlparse uri).path).length > 0 <;>
      simp only [hn, hp, if_true, if_false, ite_true, ite_false] <;>
      exact joinSlash_four _ _ _ _ _

/-- Claim C7: a capability-present spec (c, e) is activated by the
registration loop precisely when the filter list contains "all" or the
exact string c/e; ["all"] activates every capability-present spec, and
["domain/lifecycle"] activates exactly the domain lifecycle spec even
though the full engine table has 23 other specs. -/
theorem c7_filter_selection :
    (∀ (cbs : List (String × List String)) (filters : List String) (c e : String),
      (c, e) ∈ capabilityPairs cbs →
      ((c, e) ∈ selectedEvents cbs filters ↔
        filters.contains "all" = true ∨ filters.contains (c ++ "/" ++ e) = true))
    ∧ (∀ cbs, selectedEvents cbs ["all"] = capabilityPairs cbs)
    ∧ selectedEvents engineCallbacks ["domain/lifecycle"] = [("domain", "lifecycle")] := by
  refine ⟨?_, ?_, by decide⟩
  · intro cbs filters c e hmem
    rw [mem_selected_iff]
    simp only [hmem, true_and, Bool.or_eq_true]
    exact Or.comm
  · intro cbs
    unfold selectedEvents capabilityPairs
    congr 1
    induction cbs with
    | nil => rfl
    | cons oc rest ih =>
      simp only [List.map_cons]
      rw [ih, filterMap_if_true (fun et => (oc.1, et)) _ (fun et => by
        rw [show ((["all"] : List String).contains "all") = true from rfl,
          Bool.or_true]) oc.2]

theorem c7_filter_selection_witness :
    ("domain", "reboot") ∈ capabilityPairs engineCallbacks
    ∧ (("domain", "reboot") ∈ selectedEvents engineCallbacks ["all"] ↔
      (["all"] : List String).contains "all" = true
      ∨ (["all"] : List String).contains ("domain" ++ "/" ++ "reboot") = true) :=
  ⟨by decide,
   c7_filter_selection.1 engineCallbacks ["all"] "domain" "reboot" (by decide)⟩

/-- Claim C8 counterexample: with two activated subscriptions where the
first deregistration call raises, the second deregistration is never
attempted, because callbacksCleanup has no exception handling; the
claim as stated (every subscription is attempted exactly once even
when an earlier call raises) is therefore false. -/
theorem c8_first_raise_aborts_rest :
    (callbacksCleanup (fun _ i => if i = 1 then some PyErr.runtimeError else none)
        [("domain", [1, 2])]).1 = [("domain", 1)]
    ∧ ("domain", (2 : Int)) ∉
      (callbacksCleanup (fun _ i => if i = 1 then some PyErr.runtimeError else none)
        [("domain", [1, 2])]).1 := by
  refine ⟨by decide, by decide⟩

/-- Claim C8, amended: shutdown deregistration is attempted in
registration order; when no deregistration call raises, every
activated subscription receives exactly one deregistration call; a
raised call aborts the remaining deregistrations, but the connection
close handler still runs after the deregistration handler, since
atexit executes handlers in reverse registration order and continues
past a raising handler. -/
theorem c8_cleanup_behavior :
    (∀ (dereg : String → Int → Option PyErr) (l : List (String × List Int)),
      (∀ o i, dereg o i = none) → (callbacksCleanup dereg l).1 = flatPairs l)
    ∧ (∀ (dereg : String → Int → Option PyErr) (l : List (String × List Int)),
      ∃ pre, shutdownTrace dereg l = pre ++ [ShutdownEv.close]
        ∧ ShutdownEv.close ∉ pre) := by
  constructor
  · intro dereg l h
    induction l with
    | nil => rfl
    | cons oc rest ih =>
      obtain ⟨obj, ids⟩ := oc
      simp [callbacksCleanup, deregLoop_all_ok dereg obj ids (h obj), flatPairs, ih]
  · intro dereg l
    refine ⟨(callbacksCleanup dereg l).1.map
      (fun p : String × Int => ShutdownEv.dereg p.1 p.2), ?_, ?_⟩
    · rfl
    · simp [List.mem_map]

theorem c8_cleanup_behavior_witness :
    (callbacksCleanup (fun _ _ => none) [("domain", [5, 6]), ("network", [7])]).1 =
      flatPairs [("domain", [5, 6]), ("network", [7])] :=
  c8_cleanup_behavior.1 (fun _ _ => none) [("domain", [5, 6]), ("network", [7])]
    (fun _ _ => rfl)

/-- Claim C9: the run loop of start never returns normally — on any
finite prefix of successful pump calls it is still running — and when
the pump raises, the loop exits with a fatal error that wraps the
original cause inside the formatted traceback. -/
theorem c9_loop_only_exits_fatal :
    (∀ steps : List (Option String), eventLoop steps ≠ StartOutcome.normalReturn)
    ∧ (∀ (n : Nat) (e : String) (rest : List (Option String)),
        eventLoop (List.replicate n none ++ some e :: rest) =
          StartOutcome.fatal (formatExc e))
    ∧ (∀ cause : String, ∃ p, p ≠ "" ∧ formatExc cause = p ++ cause) := by
  refine ⟨?_, ?_, ?_⟩
  · intro steps
    induction steps with
    | nil => simp [eventLoop]
    | cons s rest ih =>
      cases s with
      | none => simpa [eventLoop] using ih
      | some e => simp [eventLoop]
  · intro n e rest
    induction n with
    | zero => rfl
    | succ k ih => simpa [List.replicate, eventLoop] using ih
  · intro cause
    exact ⟨"Traceback (most recent call last): ", by decide, rfl⟩

end LibvirtEvents
